import Mathlib

set_option maxHeartbeats 1000000

/-!
Verification development for the AlemAuto automotive sales manager
(src/incode.py). The program keeps vehicle records in a Firestore
`vehicles` collection; each document is a field map (Python dict), so a
record is embedded as an association list from field names to values.
Numbers (Python floats) are idealized as rationals; the claims compare
within a 1e-6 tolerance, which exact rational equality subsumes.
-/

/-- Value stored in a Firestore document field: a string, a number
(Python float, idealized as a rational), or null. -/
inductive FSVal where
  | str (s : String)
  | num (q : ℚ)
  | null
deriving DecidableEq

/-- Python truthiness of a field value: empty string, zero, and None are
falsy; everything else is truthy. -/
def FSVal.truthy : FSVal → Bool
  | .str s => s ≠ ""
  | .num q => q ≠ 0
  | .null => false

/-- A vehicle record: a Firestore document / Python dict, i.e. an ordered
field map. Python dicts have no duplicate keys. -/
abbrev Rec := List (String × FSVal)

/-- Dict lookup `data.get(k)` / Firestore field read: first entry with the
given key. -/
def getField : Rec → String → Option FSVal
  | [], _ => none
  | kv :: t, k => if kv.1 = k then some kv.2 else getField t k

/-- One field write of a Firestore `document.update({...})` merge: replace
the value at an existing key in place, or append the field if absent. -/
def setField : Rec → String → FSVal → Rec
  | [], k, v => [(k, v)]
  | kv :: t, k, v => if kv.1 = k then (k, v) :: t else kv :: setField t k v

/-- Firestore `document.update(data)`: merge every field of `data` into the
document, leaving all other fields untouched. -/
def updateFields (r : Rec) (data : Rec) : Rec :=
  data.foldl (fun acc kv => setField acc kv.1 kv.2) r

/-- Database state: the `vehicles` collection (document order models
Firestore stream order; `.add` appends) and the `backups` collection,
keyed by timestamp string, each holding a snapshot of the vehicle list. -/
structure FirestoreState where
  vehicles : List Rec
  backups : List (String × List Rec)
deriving DecidableEq

/-- Write of `db.collection('backups').document(ts).set(...)`: replace the
document at that key, or append it if absent. -/
def setBackupDoc : List (String × List Rec) → String → List Rec → List (String × List Rec)
  | [], ts, snap => [(ts, snap)]
  | p :: t, ts, snap => if p.1 = ts then (ts, snap) :: t else p :: setBackupDoc t ts snap

/-- Lookup of a backup document by its timestamp key. -/
def lookupBackup (bs : List (String × List Rec)) (ts : String) : Option (List Rec) :=
  (bs.find? (fun p => decide (p.1 = ts))).map (fun p => p.2)

/-- Predicate for the Firestore query `where('VIN', '==', v)`: the record's
`VIN` field equals the given value. -/
def vinMatches (v : FSVal) (r : Rec) : Bool :=
  decide (getField r "VIN" = some v)

/-- Index of the first record matching `where('VIN','==',v).limit(1)`. -/
def findVinIdx : List Rec → FSVal → Option Nat
  | [], _ => none
  | r :: t, v => if vinMatches v r then some 0 else (findVinIdx t v).map (fun i => i + 1)

/-- Replacement of the record at index `i` by `f` of it (the
`doc_ref.update` applied to the single queried document). -/
def updateAt : List Rec → Nat → (Rec → Rec) → List Rec
  | [], _, _ => []
  | r :: t, 0, f => f r :: t
  | r :: t, n + 1, f => r :: updateAt t n f

/-- Embeds `create_backup(df)` (src/incode.py:93-122): writes a document
keyed by a `%Y%m%d_%H%M%S` timestamp (passed here as the `timestamp`
argument) into the `backups` collection, containing the full current
vehicle list, and returns the timestamp. The `document_id` column dropped
by the source is an artifact of the pandas load and is not part of the
stored records in this embedding. -/
def create_backup (st : FirestoreState) (timestamp : String) :
    Option String × FirestoreState :=
  (some timestamp, { st with backups := setBackupDoc st.backups timestamp st.vehicles })

/-- Embeds `add_vehicle(vehicle_data)` (src/incode.py:125-146): reads
`vehicle_data.get('VIN')`; if that value is truthy, queries the live set
for an equal VIN and reports failure when one exists; otherwise (including
when the VIN is absent or falsy) appends the record to the collection
unchanged and reports success. -/
def add_vehicle (st : FirestoreState) (vehicle_data : Rec) : Bool × FirestoreState :=
  match getField vehicle_data "VIN" with
  | some v =>
    if FSVal.truthy v then
      if st.vehicles.any (vinMatches v) then (false, st)
      else (true, { st with vehicles := st.vehicles ++ [vehicle_data] })
    else (true, { st with vehicles := st.vehicles ++ [vehicle_data] })
  | none => (true, { st with vehicles := st.vehicles ++ [vehicle_data] })

/-- Embeds the key sanitization loop of `update_vehicle`
(src/incode.py:164-169): every space in a field name is replaced by an
underscore, `key.replace(" ", "_")`. The pattern and replacement are
single characters, so the Python replace is the per-character map. -/
def sanitizeKey (s : String) : String :=
  String.mk (s.data.map (fun c => if c = ' ' then '_' else c))

/-- Key sanitization applied to a whole update payload. -/
def sanitizeKeys (data : Rec) : Rec :=
  data.map (fun kv => (sanitizeKey kv.1, kv.2))

/-- Embeds `update_vehicle(vin, vehicle_data)` (src/incode.py:149-180):
queries the first document whose `VIN` equals the string `vin`; if none,
fails; otherwise merges the space-sanitized payload into that document and
succeeds. -/
def update_vehicle (st : FirestoreState) (vin : String) (vehicle_data : Rec) :
    Bool × FirestoreState :=
  match findVinIdx st.vehicles (.str vin) with
  | none => (false, st)
  | some i =>
    (true, { st with
      vehicles := updateAt st.vehicles i
        (fun r => updateFields r (sanitizeKeys vehicle_data)) })

/-- Embeds `mark_vehicle_as_sold(vin, sold_price, sold_date=None)`
(src/incode.py:183-215): queries the first document whose `VIN` equals
`vin`; if none, fails; otherwise, with `sold_date` defaulted to today's
`%Y-%m-%d` date (the `today` argument) whenever it is falsy (None or the
empty string), merges `{Status: "Sold", Sold_Date, Sold_Price}` into that
document and succeeds. No other field is written and no status check is
performed. -/
def mark_vehicle_as_sold (st : FirestoreState) (vin : String) (sold_price : ℚ)
    (sold_date : Option String) (today : String) : Bool × FirestoreState :=
  match findVinIdx st.vehicles (.str vin) with
  | none => (false, st)
  | some i =>
    let date := match sold_date with
      | some s => if s = "" then today else s
      | none => today
    (true, { st with
      vehicles := updateAt st.vehicles i (fun r =>
        updateFields r [("Status", .str "Sold"), ("Sold_Date", .str date),
          ("Sold_Price", .num sold_price)]) })

/-- Character class `[A-HJ-NPR-Z0-9]` of the VIN regex: uppercase letters
excluding I, O, Q, plus digits. -/
def isVinChar (c : Char) : Bool :=
  ('A' ≤ c && c ≤ 'H') || ('J' ≤ c && c ≤ 'N') || (c == 'P') ||
    ('R' ≤ c && c ≤ 'Z') || ('0' ≤ c && c ≤ '9')

/-- Embeds `validate_vin(vin)` (src/incode.py:218-223): falsy (empty)
input is rejected, then `re.match(r'^[A-HJ-NPR-Z0-9]{17}$', vin)` is
tested. Python `re.match` anchors at the start, and `$` (without
`re.MULTILINE`) matches at the end of the string or just before a single
newline at the end of the string; so the pattern accepts exactly the
17-character strings over the class, and the 18-character strings whose
first 17 characters are in the class and whose last character is a
newline. -/
def validate_vin (vin : String) : Bool :=
  if vin = "" then false
  else
    (vin.data.length == 17 && vin.data.all isVinChar) ||
      (vin.data.length == 18 && (vin.data.take 17).all isVinChar &&
        vin.data.getLast? == some '\n')

/-- Written from the spec (section 4.1), for comparison with
`validate_vin`: true iff the string is exactly 17 characters drawn from
`[A-HJ-NPR-Z0-9]`. -/
def specIsValid (vin : String) : Bool :=
  vin.data.length == 17 && vin.data.all isVinChar

/-- Input to one numeric parameter of `calculate_market_value`: `blank`
for a falsy value (None, the empty string, or zero — all of which the
source coerces to 0), `num q` for a truthy value that `float()` parses to
`q`, and `bad` for a truthy value on which `float()` raises
`ValueError`. -/
inductive NumInput where
  | blank
  | num (q : ℚ)
  | bad
deriving DecidableEq

/-- Evaluation of `float(x) if x else 0` on one input: falsy inputs
become 0, parsable inputs their value, unparsable inputs a raised
`ValueError` (modeled as `none`). A truthy zero takes the `float` branch
but yields 0 as well, so `num 0` and `blank` agree. -/
def NumInput.coerce : NumInput → Option ℚ
  | .blank => some 0
  | .num q => some q
  | .bad => none

/-- The `manual_market_value` argument: `absent` for `None` (the default),
`empty` for the empty string, `val q` for a non-empty string parsing to
`q`, and `badStr` for a non-empty string on which `float()` raises (the
source then warns and falls back to the computed value). -/
inductive MMVInput where
  | absent
  | empty
  | val (q : ℚ)
  | badStr
deriving DecidableEq

/-- Embeds `calculate_market_value(vehicle_cost, parts_cost, labour_cost,
markup, manual_market_value=None)` (src/incode.py:265-288): each cost and
the markup pass through `float(x) if x else 0`; a `ValueError` there is
caught and the function returns `(None, None, None)` (modeled as `none`).
Otherwise `cost` is the sum of the three costs, `price = cost *
(1 + markup/100)`, and the market value is the parsed manual value when
one was supplied and parses, else `price * 1.1`. -/
def calculate_market_value (vehicle_cost parts_cost labour_cost markup : NumInput)
    (manual_market_value : MMVInput) : Option (ℚ × ℚ × ℚ) :=
  match vehicle_cost.coerce, parts_cost.coerce, labour_cost.coerce, markup.coerce with
  | some v, some p, some l, some m =>
    let cost := v + p + l
    let price := cost * (1 + m / 100)
    let market_value := match manual_market_value with
      | .val q => q
      | _ => price * (11 / 10)
    some (cost, price, market_value)
  | _, _, _, _ => none

/-- Embeds the profit computation of the Mark-as-Sold page
(src/incode.py:610-612): `profit = sold_price - cost` and
`profit_percentage = (profit / cost * 100) if cost > 0 else 0`. -/
def computeProfit (sold_price cost : ℚ) : ℚ × ℚ :=
  (sold_price - cost, if cost > 0 then (sold_price - cost) / cost * 100 else 0)

/-- Rounding to two decimals, as the source's `f"{x:.2f}"` display
performs on its (non-tie) values. -/
def roundTo2 (q : ℚ) : ℚ := (round (q * 100) : ℤ) / 100

/-- Embeds the sale payload built on submit of the Mark-as-Sold form
(src/incode.py:626-633). -/
def sold_vehicle_data (sold_price profit profit_percentage : ℚ)
    (sold_date sale_notes : String) : Rec :=
  [("Status", .str "Sold"), ("Sold_Price", .num sold_price),
   ("Sold_Date", .str sold_date), ("Profit", .num profit),
   ("Profit_Percentage", .num profit_percentage), ("Sale_Notes", .str sale_notes)]

/-- Embeds the Mark-as-Sold page flow (src/incode.py:567-639): the
candidate list is the records whose `Status` is not `"Sold"`; for the
selected VIN the page reads `cost = float(vehicle_data.get('Cost', 0))`
(a missing `Cost` defaults to 0; in every state this program writes, a
present `Cost` is numeric), computes profit and percentage, and on submit
persists the sale payload through `update_vehicle`. -/
def markSoldFlow (st : FirestoreState) (vin : String) (sold_price : ℚ)
    (sold_date sale_notes : String) : Bool × FirestoreState :=
  match (st.vehicles.filter
      (fun r => !(decide (getField r "Status" = some (.str "Sold"))))).find?
      (vinMatches (.str vin)) with
  | none => (false, st)
  | some vd =>
    let cost : ℚ := match getField vd "Cost" with
      | some (.num q) => q
      | _ => 0
    let pr := computeProfit sold_price cost
    update_vehicle st vin (sold_vehicle_data sold_price pr.1 pr.2 sold_date sale_notes)

/-- Result of the Add-New-Vehicle submit path. -/
inductive CreateResult where
  | missingRequired
  | invalidVin
  | duplicateVin
  | success
deriving DecidableEq

/-- The `new_vehicle` dict built on submit of the Add-New-Vehicle form
(src/incode.py:448-466), fields in source order. Note the field names
containing spaces, kept verbatim. -/
def newVehicleRec (vin make mode : String) (model_year mileage : ℚ)
    (vehicle_cost parts_cost labour_cost markup : ℚ)
    (title_state status calling remark : String)
    (cost price market_value : FSVal) (added_date : String) : Rec :=
  [("Make", .str make), ("Mode", .str mode), ("Model Year", .num model_year),
   ("VIN", .str vin), ("Mileage", .num mileage),
   ("VEHCLE COST", .num vehicle_cost), ("Parts Cost", .num parts_cost),
   ("Labour Cost", .num labour_cost), ("Title State", .str title_state),
   ("Status", .str status), ("Cost", cost), ("Mark Up", .num markup),
   ("Price", price), ("Market Value", market_value), ("Calling", .str calling),
   ("Remark", .str remark), ("Added_Date", .str added_date)]

/-- A possibly-failed computed number stored into a dict field: Python
`None` becomes Firestore null. -/
def optNum : Option ℚ → FSVal
  | some q => .num q
  | none => .null

/-- Embeds the Add-New-Vehicle submit path (src/incode.py:378-472): the
form's numeric widgets yield floats (so the pricing inputs are `num`
values), `calculate_market_value` derives cost/price/market value, and on
submit the source checks, in order: required fields `make`, `mode`, `vin`
non-empty; then `validate_vin`; then hands the record to `add_vehicle`,
whose only failure on these inputs is an already-present VIN. -/
def createVehicle (st : FirestoreState) (vin make mode : String)
    (model_year mileage vehicle_cost parts_cost labour_cost markup : ℚ)
    (title_state status calling remark : String) (mmv : MMVInput)
    (added_date : String) : CreateResult × FirestoreState :=
  let cpm := calculate_market_value (.num vehicle_cost) (.num parts_cost)
    (.num labour_cost) (.num markup) mmv
  let cost := optNum (cpm.map (fun t => t.1))
  let price := optNum (cpm.map (fun t => t.2.1))
  let market_value := optNum (cpm.map (fun t => t.2.2))
  if make = "" ∨ mode = "" ∨ vin = "" then (.missingRequired, st)
  else if validate_vin vin = false then (.invalidVin, st)
  else
    let data := newVehicleRec vin make mode model_year mileage vehicle_cost
      parts_cost labour_cost markup title_state status calling remark
      cost price market_value added_date
    let result := add_vehicle st data
    if result.1 = true then (.success, result.2) else (.duplicateVin, result.2)

/-- A sample in-stock record (17-character VIN over the restricted
alphabet). -/
def sampleRec : Rec :=
  [("Make", .str "Honda"), ("VIN", .str "1HGBH41JXMN109186"),
   ("Status", .str "Available"), ("Cost", .num 6000)]

/-- A record that is already sold. -/
def soldRec : Rec :=
  [("VIN", .str "1HGBH41JXMN109186"), ("Status", .str "Sold"),
   ("Sold_Price", .num 5000), ("Sold_Date", .str "2024-01-01")]

/-- A record whose `VIN` field is the empty string. -/
def emptyVinRec : Rec := [("VIN", .str ""), ("Make", .str "Honda")]

/-- A record whose field names contain spaces. -/
def spacedRec : Rec :=
  [("Model Year", .num 2020), ("VIN", .str "1HGBH41JXMN109186")]

/-- The record of the spec's markSold scenario: cost 6000, price 6600. -/
def scenarioRec : Rec :=
  [("VIN", .str "1HGBH41JXMN109186"), ("Status", .str "Available"),
   ("Cost", .num 6000), ("Price", .num 6600)]

/-- Reading back the field just written by a merge. -/
theorem getField_setField_self (r : Rec) (k : String) (v : FSVal) :
    getField (setField r k v) k = some v := by
  induction r with
  | nil => simp [setField, getField]
  | cons kv t ih =>
    by_cases h : kv.1 = k
    · simp [setField, h, getField]
    · simp [setField, h, getField, ih]

/-- A merge of one field leaves every other field unchanged. -/
theorem getField_setField_ne (r : Rec) (k k2 : String) (v : FSVal) (h : k2 ≠ k) :
    getField (setField r k v) k2 = getField r k2 := by
  have hne : k ≠ k2 := fun hh => h hh.symm
  induction r with
  | nil => simp [setField, getField, hne]
  | cons kv t ih =>
    by_cases hk : kv.1 = k
    · simp [setField, getField, hk, hne]
    · simp [setField, getField, hk, ih]

/-- The updated list at the updated index holds the image of the old
record. -/
theorem updateAt_get_self (db : List Rec) (i : Nat) (f : Rec → Rec) :
    List.get? (updateAt db i f) i = (List.get? db i).map f := by
  induction db generalizing i with
  | nil => simp [updateAt]
  | cons r t ih =>
    cases i with
    | zero => simp [updateAt]
    | succ n => simpa [updateAt] using ih n

/-- The updated list is unchanged away from the updated index. -/
theorem updateAt_get_ne (db : List Rec) (i j : Nat) (f : Rec → Rec) (h : j ≠ i) :
    List.get? (updateAt db i f) j = List.get? db j := by
  induction db generalizing i j with
  | nil => simp [updateAt]
  | cons r t ih =>
    cases i with
    | zero =>
      cases j with
      | zero => exact absurd rfl h
      | succ m => simp [updateAt]
    | succ n =>
      cases j with
      | zero => simp [updateAt]
      | succ m => simpa [updateAt] using ih n m (fun hh => h (by simp [hh]))

/-- Updating a record list never changes its length. -/
theorem updateAt_length (db : List Rec) (i : Nat) (f : Rec → Rec) :
    (updateAt db i f).length = db.length := by
  induction db generalizing i with
  | nil => simp [updateAt]
  | cons r t ih =>
    cases i with
    | zero => simp [updateAt]
    | succ n => simpa [updateAt] using ih n

/-- A freshly written backup document is found under its timestamp key. -/
theorem lookupBackup_setBackupDoc_self (bs : List (String × List Rec)) (ts : String)
    (snap : List Rec) : lookupBackup (setBackupDoc bs ts snap) ts = some snap := by
  induction bs with
  | nil => simp [setBackupDoc, lookupBackup]
  | cons p t ih =>
    by_cases h : p.1 = ts
    · simp [setBackupDoc, h, lookupBackup]
    · simpa [setBackupDoc, h, lookupBackup] using ih

/-- A found index points at an existing record. -/
theorem findVinIdx_get (db : List Rec) (v : FSVal) (i : Nat)
    (h : findVinIdx db v = some i) : ∃ r, List.get? db i = some r := by
  induction db generalizing i with
  | nil => simp [findVinIdx] at h
  | cons r t ih =>
    by_cases hm : vinMatches v r
    · simp [findVinIdx, hm] at h
      subst h
      exact ⟨r, rfl⟩
    · simp [findVinIdx, hm] at h
      obtain ⟨j, hj, rfl⟩ := h
      obtain ⟨r2, hr2⟩ := ih j hj
      exact ⟨r2, by simpa using hr2⟩

/-- The syntactic VIN check rejects the empty string. -/
theorem validate_vin_ne_empty (vin : String) (h : validate_vin vin = true) : vin ≠ "" := by
  intro he
  subst he
  simp [validate_vin] at h

/-- `add_vehicle` either rejects leaving the state untouched, or appends
the supplied record verbatim. -/
theorem add_vehicle_state_cases (st : FirestoreState) (data : Rec) :
    add_vehicle st data = (false, st) ∨
    add_vehicle st data = (true, { st with vehicles := st.vehicles ++ [data] }) := by
  unfold add_vehicle
  cases h : getField data "VIN" with
  | none => right; rfl
  | some v =>
    by_cases ht : FSVal.truthy v
    · by_cases ha : st.vehicles.any (vinMatches v)
      · left; simp [ht, ha]
      · right; simp [ht, ha]
    · right; simp [ht]

/-- `add_vehicle` rejects a record whose non-empty VIN already occurs. -/
theorem add_vehicle_dup (st : FirestoreState) (data : Rec) (v : String)
    (hvin : getField data "VIN" = some (.str v)) (hne : v ≠ "")
    (hdup : st.vehicles.any (vinMatches (.str v)) = true) :
    add_vehicle st data = (false, st) := by
  unfold add_vehicle
  rw [hvin]
  simp [FSVal.truthy, hne, hdup]

/-- When `add_vehicle` accepts a record with a non-empty VIN, that VIN was
not yet present. -/
theorem add_vehicle_ok_no_dup (st : FirestoreState) (data : Rec) (v : String)
    (hvin : getField data "VIN" = some (.str v)) (hne : v ≠ "")
    (hok : (add_vehicle st data).1 = true) :
    st.vehicles.any (vinMatches (.str v)) = false := by
  by_contra hdup
  rw [add_vehicle_dup st data v hvin hne (by simpa using hdup)] at hok
  simp at hok

/-- Field-level description of the three-field merge performed by
`mark_vehicle_as_sold`. -/
theorem getField_soldMerge (r : Rec) (date : String) (sp : ℚ) :
    getField (updateFields r [("Status", .str "Sold"), ("Sold_Date", .str date),
      ("Sold_Price", .num sp)]) "Status" = some (.str "Sold") ∧
    getField (updateFields r [("Status", .str "Sold"), ("Sold_Date", .str date),
      ("Sold_Price", .num sp)]) "Sold_Date" = some (.str date) ∧
    getField (updateFields r [("Status", .str "Sold"), ("Sold_Date", .str date),
      ("Sold_Price", .num sp)]) "Sold_Price" = some (.num sp) ∧
    (∀ k, k ≠ "Status" → k ≠ "Sold_Date" → k ≠ "Sold_Price" →
      getField (updateFields r [("Status", .str "Sold"), ("Sold_Date", .str date),
        ("Sold_Price", .num sp)]) k = getField r k) := by
  have hu : updateFields r [("Status", .str "Sold"), ("Sold_Date", .str date),
      ("Sold_Price", .num sp)] =
      setField (setField (setField r "Status" (.str "Sold")) "Sold_Date" (.str date))
        "Sold_Price" (.num sp) := rfl
  refine ⟨?_, ?_, ?_, ?_⟩
  · rw [hu, getField_setField_ne _ _ _ _ (by decide),
      getField_setField_ne _ _ _ _ (by decide), getField_setField_self]
  · rw [hu, getField_setField_ne _ _ _ _ (by decide), getField_setField_self]
  · rw [hu, getField_setField_self]
  · intro k h1 h2 h3
    rw [hu, getField_setField_ne _ _ _ _ h3, getField_setField_ne _ _ _ _ h2,
      getField_setField_ne _ _ _ _ h1]

/-- C3: for non-negative cost inputs and markup, the pricing computation
returns cost = vehicleCost + partsCost + labourCost, price =
cost * (1 + markup/100) and, with no market-value override supplied,
marketValue = price * 1.1; exact rational equality subsumes the claimed
1e-6 tolerance. -/
theorem pricing_formula_correct (v p l m : ℚ)
    (hv : 0 ≤ v) (hp : 0 ≤ p) (hl : 0 ≤ l) (hm : 0 ≤ m) :
    calculate_market_value (.num v) (.num p) (.num l) (.num m) .absent =
      some (v + p + l, (v + p + l) * (1 + m / 100),
        (v + p + l) * (1 + m / 100) * (11 / 10)) := rfl

/-- Witness for C3: vehicleCost 5000, partsCost 800, labourCost 200,
markup 10 and no override yield cost 6000, price 6600, market value
7260. -/
theorem pricing_formula_correct_witness :
    calculate_market_value (.num 5000) (.num 800) (.num 200) (.num 10) .absent =
      some (6000, 6600, 7260) := by
  rw [pricing_formula_correct 5000 800 200 10 (by norm_num) (by norm_num)
    (by norm_num) (by norm_num)]
  simp only [Option.some.injEq, Prod.mk.injEq]
  norm_num

/-- C4: the VIN validator accepts the 18-character input consisting of 17
valid characters followed by a newline, because Python's `$` anchor also
matches just before a trailing newline; the spec's predicate (exactly 17
characters over the class) rejects that input, and the source's own
comment says the check is for 17 characters. -/
theorem vin_validator_accepts_trailing_newline :
    validate_vin "AAAAAAAAAAAAAAAAA\n" = true ∧
    ("AAAAAAAAAAAAAAAAA\n").length = 18 ∧
    specIsValid "AAAAAAAAAAAAAAAAA\n" = false := by decide

/-- C6 counterexample: a supplied negative vehicle cost is not rejected;
the computation returns the triple (-100, -110, -121) rather than the
failure result the claim requires. -/
theorem negative_cost_not_rejected :
    calculate_market_value (.num (-100)) .blank .blank (.num 10) .absent =
      some (-100, -110, -121) := by
  simp [calculate_market_value, NumInput.coerce]
  norm_num

/-- C6 as amended: absent/blank numeric inputs are coerced to 0 before
summing, and the computation fails (returns the None triple) exactly when
some supplied cost or markup field cannot parse as a decimal; the sign is
never checked, so parsable negative values are accepted. -/
theorem pricing_error_exactly_on_unparsable :
    (∀ vc pc lc mu mmv, (calculate_market_value vc pc lc mu mmv = none ↔
      (vc = NumInput.bad ∨ pc = NumInput.bad ∨ lc = NumInput.bad ∨
        mu = NumInput.bad))) ∧
    (∀ pc lc mu mmv, calculate_market_value .blank pc lc mu mmv =
      calculate_market_value (.num 0) pc lc mu mmv) ∧
    (∀ vc lc mu mmv, calculate_market_value vc .blank lc mu mmv =
      calculate_market_value vc (.num 0) lc mu mmv) ∧
    (∀ vc pc mu mmv, calculate_market_value vc pc .blank mu mmv =
      calculate_market_value vc pc (.num 0) mu mmv) ∧
    (∀ vc pc lc mmv, calculate_market_value vc pc lc .blank mmv =
      calculate_market_value vc pc lc (.num 0) mmv) := by
  refine ⟨?_, ?_, ?_, ?_, ?_⟩
  · intro vc pc lc mu mmv
    cases vc <;> cases pc <;> cases lc <;> cases mu <;>
      simp [calculate_market_value, NumInput.coerce]
  · intro pc lc mu mmv
    cases pc <;> cases lc <;> cases mu <;>
      simp [calculate_market_value, NumInput.coerce]
  · intro vc lc mu mmv
    cases vc <;> cases lc <;> cases mu <;>
      simp [calculate_market_value, NumInput.coerce]
  · intro vc pc mu mmv
    cases vc <;> cases pc <;> cases mu <;>
      simp [calculate_market_value, NumInput.coerce]
  · intro vc pc lc mmv
    cases vc <;> cases pc <;> cases lc <;>
      simp [calculate_market_value, NumInput.coerce]

/-- C1 counterexample: a successful create performs the durable write yet
leaves the backups collection empty; no backup artifact predating the new
state exists. -/
theorem backup_skipped_on_successful_create :
    (add_vehicle ⟨[], []⟩ sampleRec).1 = true ∧
    (add_vehicle ⟨[], []⟩ sampleRec).2.vehicles = [sampleRec] ∧
    (add_vehicle ⟨[], []⟩ sampleRec).2.backups = [] := by decide

/-- C1 as amended: no mutating operation takes a backup — create, update
and mark-as-sold all leave the backups collection exactly as it was —
while the (never invoked) `create_backup` routine, when called, does store
a full snapshot of the pre-call record set under its timestamp key and
leaves the record set itself unchanged. -/
theorem mutations_never_write_backups :
    (∀ st data, ((add_vehicle st data).2).backups = st.backups) ∧
    (∀ st vin data, ((update_vehicle st vin data).2).backups = st.backups) ∧
    (∀ st vin sp sd today,
      ((mark_vehicle_as_sold st vin sp sd today).2).backups = st.backups) ∧
    (∀ st ts, (create_backup st ts).1 = some ts ∧
      lookupBackup ((create_backup st ts).2).backups ts = some st.vehicles ∧
      ((create_backup st ts).2).vehicles = st.vehicles) := by
  refine ⟨?_, ?_, ?_, ?_⟩
  · intro st data
    rcases add_vehicle_state_cases st data with h | h <;> rw [h]
  · intro st vin data
    unfold update_vehicle
    split <;> rfl
  · intro st vin sp sd today
    unfold mark_vehicle_as_sold
    split <;> rfl
  · intro st ts
    exact ⟨rfl, lookupBackup_setBackupDoc_self _ _ _, rfl⟩

/-- C2 counterexample: invoking mark-as-sold on a record whose status is
already Sold (with Sold_Price 5000) succeeds and overwrites the sold
fields, instead of failing and leaving them unchanged. -/
theorem mark_sold_overwrites_already_sold :
    (mark_vehicle_as_sold ⟨[soldRec], []⟩ "1HGBH41JXMN109186" 7000
      (some "2024-02-02") "2024-03-03").1 = true ∧
    ((mark_vehicle_as_sold ⟨[soldRec], []⟩ "1HGBH41JXMN109186" 7000
      (some "2024-02-02") "2024-03-03").2.vehicles.head?.map
        (fun r => (getField r "Status", getField r "Sold_Price",
          getField r "Sold_Date"))) =
      some (some (.str "Sold"), some (.num 7000), some (.str "2024-02-02")) := by
  decide

/-- Unfolding of a successful `mark_vehicle_as_sold`: the matched record
receives the three-field merge, with the effective date `d` being the
supplied date when truthy and today's date otherwise. -/
theorem mark_sold_unfold (st : FirestoreState) (vin : String) (sp : ℚ)
    (sd : Option String) (today : String) (i : Nat)
    (h : findVinIdx st.vehicles (.str vin) = some i) :
    ∃ d : String, mark_vehicle_as_sold st vin sp sd today =
      (true, { st with vehicles := updateAt st.vehicles i (fun r =>
        updateFields r [("Status", .str "Sold"), ("Sold_Date", .str d),
          ("Sold_Price", .num sp)]) }) ∧
      ((sd = none ∨ sd = some "") → d = today) ∧
      (∀ s2, sd = some s2 → s2 ≠ "" → d = s2) := by
  refine ⟨match sd with
    | some s => if s = "" then today else s
    | none => today, ?_, ?_, ?_⟩
  · simp only [mark_vehicle_as_sold, h]
  · rintro (rfl | rfl) <;> simp
  · rintro s2 rfl hs2
    simp [hs2]

/-- C2 as amended: `mark_vehicle_as_sold` performs no status check; on any
record matched by VIN — including one already in Sold status — it succeeds
and overwrites Status, Sold_Date and Sold_Price, so Sold is not terminal
at the store level (only the page's selection list excludes Sold
records). -/
theorem mark_sold_ignores_status (st : FirestoreState) (vin : String) (sp : ℚ)
    (sd : Option String) (today : String) (i : Nat)
    (h : findVinIdx st.vehicles (.str vin) = some i) :
    (mark_vehicle_as_sold st vin sp sd today).1 = true ∧
    ∃ r2, List.get? ((mark_vehicle_as_sold st vin sp sd today).2).vehicles i =
        some r2 ∧
      getField r2 "Status" = some (.str "Sold") ∧
      getField r2 "Sold_Price" = some (.num sp) := by
  obtain ⟨r, hr⟩ := findVinIdx_get st.vehicles (.str vin) i h
  obtain ⟨d, hm, -, -⟩ := mark_sold_unfold st vin sp sd today i h
  rw [hm]
  refine ⟨rfl, ?_⟩
  have hg := updateAt_get_self st.vehicles i (fun r0 =>
    updateFields r0 [("Status", .str "Sold"), ("Sold_Date", .str d),
      ("Sold_Price", .num sp)])
  rw [hr] at hg
  simp only [Option.map_some'] at hg
  exact ⟨_, hg, (getField_soldMerge r d sp).1, (getField_soldMerge r d sp).2.2.1⟩

/-- Witness for the amended C2: on a store holding one already-sold
record, mark-as-sold reports success. -/
theorem mark_sold_ignores_status_witness :
    (mark_vehicle_as_sold ⟨[soldRec], []⟩ "1HGBH41JXMN109186" 6500 none
      "2024-05-05").1 = true :=
  (mark_sold_ignores_status ⟨[soldRec], []⟩ "1HGBH41JXMN109186" 6500 none
    "2024-05-05" 0 (by decide)).1

/-- C5: a create request whose (non-empty, as every VIN that passes the
syntactic check is) VIN is already present among the live records fails
and leaves the store unchanged — in particular the record count is
unchanged — and conversely a successful create means the VIN was not yet
present, preserving VIN uniqueness. -/
theorem duplicate_vin_rejected :
    (∀ st data v, getField data "VIN" = some (.str v) → v ≠ "" →
      st.vehicles.any (vinMatches (.str v)) = true →
      add_vehicle st data = (false, st)) ∧
    (∀ st data v, getField data "VIN" = some (.str v) → v ≠ "" →
      (add_vehicle st data).1 = true →
      st.vehicles.any (vinMatches (.str v)) = false) :=
  ⟨add_vehicle_dup, add_vehicle_ok_no_dup⟩

/-- Witness for C5: re-adding the sample record to a store already holding
its VIN fails and leaves the store as it was. -/
theorem duplicate_vin_rejected_witness :
    add_vehicle ⟨[sampleRec], []⟩ sampleRec = (false, ⟨[sampleRec], []⟩) :=
  duplicate_vin_rejected.1 ⟨[sampleRec], []⟩ sampleRec "1HGBH41JXMN109186"
    (by decide) (by decide) (by decide)

/-- C7: on a record's (non-negative, as all costs this program derives
are) current cost, profit = soldPrice - cost and profitPercent =
profit / cost * 100 with the value 0 at cost 0; concretely, selling at
7000 against cost 6000 gives profit 1000 and percent 50/3, which rounds
to 16.67, and the persisted record's status becomes Sold with those
values stored. -/
theorem profit_formula_correct :
    (∀ sp c : ℚ, 0 ≤ c →
      (computeProfit sp c).1 = sp - c ∧
      (computeProfit sp c).2 = (if c = 0 then 0 else (sp - c) / c * 100)) ∧
    computeProfit 7000 6000 = (1000, 50 / 3) ∧
    roundTo2 (50 / 3) = 1667 / 100 ∧
    (markSoldFlow ⟨[scenarioRec], []⟩ "1HGBH41JXMN109186" 7000 "2024-03-01"
      "").1 = true ∧
    ((markSoldFlow ⟨[scenarioRec], []⟩ "1HGBH41JXMN109186" 7000 "2024-03-01"
      "").2.vehicles.head?.map (fun r => (getField r "Status",
        getField r "Profit", getField r "Profit_Percentage"))) =
      some (some (.str "Sold"), some (.num 1000), some (.num (50 / 3))) := by
  have hpr : computeProfit 7000 6000 = (1000, 50 / 3) := by
    simp [computeProfit]
    norm_num
  refine ⟨?_, hpr, ?_, ?_, ?_⟩
  · intro sp c hc
    refine ⟨rfl, ?_⟩
    by_cases h0 : c = 0
    · simp [computeProfit, h0]
    · have hlt : 0 < c := lt_of_le_of_ne hc (fun hh => h0 hh.symm)
      simp [computeProfit, hlt, h0]
  · have h1 : (50 : ℚ) / 3 * 100 = 5000 / 3 := by norm_num
    have h2 : round ((5000 : ℚ) / 3) = 1667 := by norm_num [round_eq]
    rw [roundTo2, h1, h2]
    norm_num
  · simp [markSoldFlow, scenarioRec, getField, vinMatches, update_vehicle,
      findVinIdx, updateAt, updateFields, sanitizeKeys, sanitizeKey, setField,
      sold_vehicle_data, hpr]
  · simp [markSoldFlow, scenarioRec, getField, vinMatches, update_vehicle,
      findVinIdx, updateAt, updateFields, sanitizeKeys, sanitizeKey, setField,
      sold_vehicle_data, hpr]

/-- Witness for C7: the universal part evaluated at soldPrice 7000,
cost 6000. -/
theorem profit_formula_correct_witness :
    (computeProfit 7000 6000).1 = 7000 - 6000 ∧
    (computeProfit 7000 6000).2 =
      (if (6000 : ℚ) = 0 then 0 else (7000 - 6000) / 6000 * 100) :=
  profit_formula_correct.1 7000 6000 (by norm_num)

/-- The VIN stored by the submit path is the form's VIN field. -/
theorem getField_newVehicleRec_vin (vin make mode : String) (my mi vc pc lc mu : ℚ)
    (ts s2 ca re : String) (cost price mv : FSVal) (ad : String) :
    getField (newVehicleRec vin make mode my mi vc pc lc mu ts s2 ca re
      cost price mv ad) "VIN" = some (.str vin) := rfl

/-- A rejected `add_vehicle` leaves the state unchanged. -/
theorem add_vehicle_false_snd (st : FirestoreState) (data : Rec)
    (h : (add_vehicle st data).1 = false) : (add_vehicle st data).2 = st := by
  rcases add_vehicle_state_cases st data with hc | hc
  · rw [hc]
  · rw [hc] at h
    simp at h

/-- The submit path's handling of the `add_vehicle` outcome, when the
record carries an already-present VIN. -/
theorem createVehicle_tail_dup (st : FirestoreState) (data : Rec)
    (hd : add_vehicle st data = (false, st)) :
    (if (add_vehicle st data).1 = true
      then ((CreateResult.success : CreateResult), (add_vehicle st data).2)
      else (CreateResult.duplicateVin, (add_vehicle st data).2)) =
      (.duplicateVin, st) := by
  rw [hd]
  simp

/-- Any non-success outcome of the submit path's tail leaves the state
unchanged. -/
theorem createVehicle_tail_state (st : FirestoreState) (data : Rec)
    (res : CreateResult) (st2 : FirestoreState)
    (h : (if (add_vehicle st data).1 = true
      then ((CreateResult.success : CreateResult), (add_vehicle st data).2)
      else (CreateResult.duplicateVin, (add_vehicle st data).2)) = (res, st2))
    (hres : res ≠ CreateResult.success) : st2 = st := by
  by_cases hb : (add_vehicle st data).1 = true
  · rw [if_pos hb] at h
    injection h with ha hb2
    exact absurd ha.symm hres
  · rw [if_neg hb] at h
    injection h with ha hb2
    rw [← hb2]
    exact add_vehicle_false_snd st data (by simpa using hb)

/-- C8: the create submit path checks, in order, required fields (make,
mode, vin) present, then VIN syntactic validity, then VIN absence from the
live set; with several violations present the earliest wins, and on every
failure the store is unchanged. Its numeric inputs come from numeric form
widgets and are passed as parsed numbers, so the numeric-parse step can
never be the failing one on this path. -/
theorem create_validation_order :
    (∀ st vin make mode my mi vc pc lc mu ts s2 ca re mmv ad,
      (make = "" ∨ mode = "" ∨ vin = "") →
      createVehicle st vin make mode my mi vc pc lc mu ts s2 ca re mmv ad =
        (.missingRequired, st)) ∧
    (∀ st vin make mode my mi vc pc lc mu ts s2 ca re mmv ad,
      make ≠ "" → mode ≠ "" → vin ≠ "" → validate_vin vin = false →
      createVehicle st vin make mode my mi vc pc lc mu ts s2 ca re mmv ad =
        (.invalidVin, st)) ∧
    (∀ st vin make mode my mi vc pc lc mu ts s2 ca re mmv ad,
      make ≠ "" → mode ≠ "" → validate_vin vin = true →
      st.vehicles.any (vinMatches (.str vin)) = true →
      createVehicle st vin make mode my mi vc pc lc mu ts s2 ca re mmv ad =
        (.duplicateVin, st)) ∧
    (∀ st vin make mode my mi vc pc lc mu ts s2 ca re mmv ad res st2,
      createVehicle st vin make mode my mi vc pc lc mu ts s2 ca re mmv ad =
        (res, st2) →
      res ≠ CreateResult.success → st2 = st) := by
  refine ⟨?_, ?_, ?_, ?_⟩
  · intro st vin make mode my mi vc pc lc mu ts s2 ca re mmv ad hmiss
    simp only [createVehicle]
    rw [if_pos hmiss]
  · intro st vin make mode my mi vc pc lc mu ts s2 ca re mmv ad hmake hmode hvin hval
    have hcond : ¬(make = "" ∨ mode = "" ∨ vin = "") := by
      push_neg
      exact ⟨hmake, hmode, hvin⟩
    simp only [createVehicle]
    rw [if_neg hcond, if_pos hval]
  · intro st vin make mode my mi vc pc lc mu ts s2 ca re mmv ad hmake hmode hval hdup
    have hvempty : vin ≠ "" := validate_vin_ne_empty vin hval
    have hcond : ¬(make = "" ∨ mode = "" ∨ vin = "") := by
      push_neg
      exact ⟨hmake, hmode, hvempty⟩
    have hv2 : ¬(validate_vin vin = false) := by simp [hval]
    simp only [createVehicle]
    rw [if_neg hcond, if_neg hv2]
    exact createVehicle_tail_dup st _
      (add_vehicle_dup st _ vin
        (getField_newVehicleRec_vin _ _ _ _ _ _ _ _ _ _ _ _ _ _ _ _ _)
        hvempty hdup)
  · intro st vin make mode my mi vc pc lc mu ts s2 ca re mmv ad res st2 h hres
    simp only [createVehicle] at h
    by_cases h1 : make = "" ∨ mode = "" ∨ vin = ""
    · rw [if_pos h1] at h
      injection h with ha hb
      exact hb.symm
    · rw [if_neg h1] at h
      by_cases h2 : validate_vin vin = false
      · rw [if_pos h2] at h
        injection h with ha hb
        exact hb.symm
      · rw [if_neg h2] at h
        exact createVehicle_tail_state st _ res st2 h hres

/-- Witness for C8: with both the make missing and the VIN syntactically
invalid, the reported error is the earlier one (missing required field),
and the store is untouched. -/
theorem create_validation_order_witness :
    createVehicle ⟨[], []⟩ "BADVIN" "" "Civic" 2020 0 5000 800 200 10 "CA"
      "Available" "" "" .absent "2024-01-01" = (.missingRequired, ⟨[], []⟩) :=
  create_validation_order.1 ⟨[], []⟩ "BADVIN" "" "Civic" 2020 0 5000 800 200 10
    "CA" "Available" "" "" .absent "2024-01-01" (Or.inl rfl)

/-- C9 counterexample: a successful create stores its record verbatim —
the persisted document keeps the field name "Model Year" with its space,
with no normalization applied. -/
theorem create_stores_spaced_field_names :
    (add_vehicle ⟨[], []⟩ spacedRec).1 = true ∧
    (add_vehicle ⟨[], []⟩ spacedRec).2.vehicles =
      [[("Model Year", .num 2020), ("VIN", .str "1HGBH41JXMN109186")]] := by
  decide

/-- C9 as amended: only the update operation normalizes field names —
every key it stores has its spaces replaced by underscores (shown on the
real spaced field names) — while the create operation appends the record
exactly as supplied, spaces included, or rejects it outright. -/
theorem only_update_sanitizes_field_names :
    (∀ st data, ((add_vehicle st data).2).vehicles = st.vehicles ∨
      ((add_vehicle st data).2).vehicles = st.vehicles ++ [data]) ∧
    (∀ s, (sanitizeKey s).data.all (fun c => !(c == ' ')) = true) ∧
    sanitizeKeys [("Model Year", .num 2020), ("Market Value", .num 7260),
      ("VEHCLE COST", .num 5000)] =
      [("Model_Year", .num 2020), ("Market_Value", .num 7260),
        ("VEHCLE_COST", .num 5000)] := by
  refine ⟨?_, ?_, by decide⟩
  · intro st data
    rcases add_vehicle_state_cases st data with h | h
    · left
      rw [h]
    · right
      rw [h]
  · intro s
    show (s.data.map _).all _ = true
    rw [List.all_map]
    apply List.all_eq_true.mpr
    intro c hc
    by_cases h : c = ' ' <;> simp [h]

/-- C10: a successful mark-as-sold touches exactly the matched record,
merging only Status (to Sold), Sold_Price and Sold_Date into it; every
other field of that record, every other record, the record count and the
backups are unchanged; and when the supplied sold date is absent or empty
the stored Sold_Date is today's date (supplied to the embedding already in
its YYYY-MM-DD rendering). -/
theorem mark_sold_frame (st : FirestoreState) (vin : String) (sp : ℚ)
    (sd : Option String) (today : String) (i : Nat) (r : Rec)
    (h : findVinIdx st.vehicles (.str vin) = some i)
    (hr : List.get? st.vehicles i = some r) :
    (mark_vehicle_as_sold st vin sp sd today).1 = true ∧
    (∀ j, j ≠ i →
      List.get? ((mark_vehicle_as_sold st vin sp sd today).2).vehicles j =
        List.get? st.vehicles j) ∧
    ((mark_vehicle_as_sold st vin sp sd today).2).vehicles.length =
      st.vehicles.length ∧
    ((mark_vehicle_as_sold st vin sp sd today).2).backups = st.backups ∧
    ∃ r2, List.get? ((mark_vehicle_as_sold st vin sp sd today).2).vehicles i =
        some r2 ∧
      (∀ k, k ≠ "Status" → k ≠ "Sold_Date" → k ≠ "Sold_Price" →
        getField r2 k = getField r k) ∧
      getField r2 "Status" = some (.str "Sold") ∧
      getField r2 "Sold_Price" = some (.num sp) ∧
      ((sd = none ∨ sd = some "") →
        getField r2 "Sold_Date" = some (.str today)) ∧
      (∀ s2, sd = some s2 → s2 ≠ "" →
        getField r2 "Sold_Date" = some (.str s2)) := by
  obtain ⟨d, hm, hd1, hd2⟩ := mark_sold_unfold st vin sp sd today i h
  rw [hm]
  have hg := updateAt_get_self st.vehicles i (fun r0 =>
    updateFields r0 [("Status", .str "Sold"), ("Sold_Date", .str d),
      ("Sold_Price", .num sp)])
  rw [hr] at hg
  simp only [Option.map_some'] at hg
  obtain ⟨hs, hsd, hsp, hfr⟩ := getField_soldMerge r d sp
  refine ⟨rfl, ?_, ?_, rfl, ?_⟩
  · intro j hj
    exact updateAt_get_ne st.vehicles i j _ hj
  · exact updateAt_length st.vehicles i _
  · refine ⟨_, hg, hfr, hs, hsp, ?_, ?_⟩
    · intro hcase
      rw [hsd, hd1 hcase]
    · intro s2 hs2 hne
      rw [hsd, hd2 s2 hs2 hne]

/-- Witness for C10: marking the scenario record sold with no supplied
date succeeds. -/
theorem mark_sold_frame_witness :
    (mark_vehicle_as_sold ⟨[scenarioRec], []⟩ "1HGBH41JXMN109186" 7000 none
      "2024-03-01").1 = true :=
  (mark_sold_frame ⟨[scenarioRec], []⟩ "1HGBH41JXMN109186" 7000 none
    "2024-03-01" 0 scenarioRec (by decide) (by decide)).1
